import Mathlib

/-!
Verification of the audio-control capture/processing/transcription pipeline.

Shallow embedding of the core components of the repository:
* `AudioProcessor.process` (src-tauri/src/audio/processor.rs) — buffering,
  trimming and resampling of audio chunks;
* `TranscriptionService.transcribe` (src-tauri/src/transcription/service.rs)
  and `whisper.transcribe` (src-tauri/src/transcription/whisper.rs) — the
  minimum-duration gates in front of the speech-to-text engine;
* `Recorder.start_recording` / `Recorder.record_audio_thread` /
  `Recorder.stop_recording` (src-tauri/src/audio/recorder.rs) — the recording
  state machine and the worker thread's failure paths;
* the orchestrator's consumption-loop body (src-tauri/src/orchestrator.rs) —
  failure counting and loop termination.

Audio samples (Rust `f32` PCM values) are an opaque type parameter `α`: the
core never computes with sample values, it only moves them around.  The
external resampling utility (`vad_rs::audio_resample`) and the speech-to-text
engine (`whisper_rs` state) are abstract function parameters.
-/

namespace AudioControl

/-! ## ProcessorConfig and AudioProcessor.process (audio/processor.rs) -/

/-- `ProcessorConfig` from processor.rs: per-session processing settings.
Rust field types `u32`/`u16`/`usize` are embedded as `ℕ`. -/
structure ProcessorConfig where
  target_sample_rate : ℕ
  target_channels : ℕ
  source_sample_rate : ℕ
  source_channels : ℕ
  min_samples_for_processing : ℕ
  max_buffer_size : ℕ
deriving DecidableEq

/-- The `Default` impl for `ProcessorConfig` in processor.rs. -/
def ProcessorConfig.default : ProcessorConfig where
  target_sample_rate := 16000
  target_channels := 1
  source_sample_rate := 44100
  source_channels := 1
  min_samples_for_processing := 16000
  max_buffer_size := 160000

/-- The guard condition of the trim branch at the top of
`AudioProcessor::process`: `buffer_guard.len() > self.config.max_buffer_size`. -/
def trimGuard (c : ProcessorConfig) (buffer : List α) : Prop :=
  c.max_buffer_size < buffer.length

instance (c : ProcessorConfig) (buffer : List α) : Decidable (trimGuard c buffer) :=
  inferInstanceAs (Decidable (_ < _))

/-- The trim branch of `AudioProcessor::process`:
`copy_within(start_idx.., 0)` followed by `truncate(min_samples_for_processing)`
with `start_idx = len - min_samples_for_processing`, i.e. keep the most recent
`min_samples_for_processing` samples.  (In Rust, `start_idx` underflows and the
branch panics when the buffer is both longer than `max_buffer_size` and shorter
than `min_samples_for_processing`; theorems that touch the trim branch carry a
hypothesis excluding that state, which is unreachable when
`max_buffer_size ≥ min_samples_for_processing`.) -/
def trimIfOversized (c : ProcessorConfig) (buffer : List α) : List α :=
  if trimGuard c buffer then
    List.take c.min_samples_for_processing
      (List.drop (buffer.length - c.min_samples_for_processing) buffer)
  else buffer

/-- `AudioProcessor::process` from processor.rs, with the buffer passed
explicitly (in Rust it lives behind `self.buffer`'s mutex) and the external
`vad_rs::audio_resample` utility abstracted as the parameter `resample`
(samples, source rate, target rate, source channels).  Returns the Rust
function's return value paired with the buffer contents after the call. -/
def process (resample : List α → ℕ → ℕ → ℕ → List α) (c : ProcessorConfig)
    (buffer chunk : List α) : Option (List α) × List α :=
  let buf := trimIfOversized c buffer
  let buf := buf ++ chunk
  if buf.length < c.min_samples_for_processing then
    (none, buf)
  else
    let samples_to_process := buf
    if c.source_sample_rate ≠ c.target_sample_rate ∨
       c.source_channels ≠ c.target_channels then
      (some (resample samples_to_process c.source_sample_rate c.target_sample_rate
        c.source_channels), [])
    else
      (some samples_to_process, [])

/-- The buffer contents after processing a sequence of chunks starting from the
freshly constructed processor's empty buffer (`AudioProcessor::with_config`
creates the buffer empty). -/
def runBuffer (resample : List α → ℕ → ℕ → ℕ → List α) (c : ProcessorConfig)
    (chunks : List (List α)) : List α :=
  chunks.foldl (fun buffer chunk => (process resample c buffer chunk).2) []

/-! ## TranscriptionService (transcription/service.rs) and the whisper gate
(transcription/whisper.rs) -/

/-- `TranscriptionConfig` from service.rs.  `min_duration_seconds: f32` is
embedded as `ℚ` (every finite `f32` is a rational; all values appearing in the
claims are exactly representable and the arithmetic on them is exact). -/
structure TranscriptionConfig where
  language : String
  min_duration_seconds : ℚ
  sample_rate : ℕ
  model_path : String

/-- The `Default` impl for `TranscriptionConfig` in service.rs. -/
def TranscriptionConfig.default : TranscriptionConfig where
  language := "en"
  min_duration_seconds := 1
  sample_rate := 16000
  model_path := "model/ggml-tiny.en.bin"

/-- `let min_samples = (self.config.min_duration_seconds * self.config.sample_rate
as f32) as usize` in `TranscriptionService::transcribe`.  Rust's float-to-`usize`
`as` cast truncates toward zero and saturates at 0 for negative values, which is
exactly `Nat.floor` on `ℚ`. -/
def TranscriptionConfig.minSamples (c : TranscriptionConfig) : ℕ :=
  ⌊c.min_duration_seconds * (c.sample_rate : ℚ)⌋₊

/-- `MIN_AUDIO_DURATION_SECONDS` from whisper.rs. -/
def MIN_AUDIO_DURATION_SECONDS : ℚ := 1

/-- `SAMPLE_RATE` from whisper.rs. -/
def SAMPLE_RATE : ℕ := 16000

/-- `whisper::transcribe` from whisper.rs.  Its own minimum-length gate is
computed from the hard-coded constants
(`MIN_AUDIO_DURATION_SECONDS * SAMPLE_RATE as f32) as usize`; past the gate the
global whisper state lookup, `state.full` and segment-text extraction are
abstracted as the `engine` parameter (each of whose failure paths returns
`None`, which an `engine` value can also do). -/
def whisperTranscribe (engine : List α → Option String) (samples : List α) :
    Option String :=
  if samples.length < ⌊MIN_AUDIO_DURATION_SECONDS * (SAMPLE_RATE : ℚ)⌋₊ then
    none
  else
    engine samples

/-- `TranscriptionService::transcribe` from service.rs: gate on the configured
minimum length, then delegate to `whisper::transcribe`. -/
def transcribe (engine : List α → Option String) (c : TranscriptionConfig)
    (samples : List α) : Option String :=
  if samples.length < c.minSamples then
    none
  else
    whisperTranscribe engine samples

/-! ## Recorder (audio/recorder.rs) -/

/-- `RecordingState` from recorder.rs. -/
inductive RecordingState where
  | Inactive
  | Active
  | StopRequested
deriving DecidableEq

/-- `RecorderState` from recorder.rs: the shared state behind
`Arc<Mutex<...>>`.  The `tokio` channel sender is opaque; senders are
identified by a `ℕ` tag. -/
structure RecorderState where
  recording_state : RecordingState
  audio_sender : Option ℕ
deriving DecidableEq

/-- `Recorder` from recorder.rs: shared state plus the stored worker-thread
join handle (threads identified by a `ℕ` tag; `config` carries no data the
claims touch — `record_audio_thread` ignores it). -/
structure Recorder where
  state : RecorderState
  recording_thread : Option ℕ
deriving DecidableEq

/-- `Recorder::with_config` / `Recorder::new`: fresh recorder, Inactive, no
sender, no thread. -/
def Recorder.new : Recorder where
  state := { recording_state := .Inactive, audio_sender := none }
  recording_thread := none

/-- `Recorder::start_recording` from recorder.rs.  `tid` identifies the thread
that would be spawned.  Returns the updated recorder and whether a worker
thread was spawned (i.e. whether `thread::spawn` ran). -/
def Recorder.start_recording (r : Recorder) (audio_sender : ℕ) (tid : ℕ) :
    Recorder × Bool :=
  if r.state.recording_state = .Active then
    (r, false)
  else
    ({ state := { recording_state := .Active, audio_sender := some audio_sender },
       recording_thread := some tid }, true)

/-- The ways `Recorder::record_audio_thread` can play out, in source order:
the five device-setup failures that make the worker return before capture
begins, or successful stream start (`ok`, after which the worker polls until
the shared state leaves `Active` and exits). -/
inductive DeviceSetup where
  | noInputDevice
  | defaultConfigErr
  | unsupportedSampleFormat
  | buildStreamErr
  | playErr
  | ok
deriving DecidableEq

/-- `Recorder::record_audio_thread` from recorder.rs, as a function from the
device-setup outcome and the shared state to the shared state at the moment
the worker thread exits.  Mirrors the source's early returns in order: no
input device, default-input-config failure, then the missing-sender check,
then unsupported sample format, stream-build failure, stream-start failure.
None of the paths writes to the shared state; on `ok` the worker polls
`should_stop` and exits once another thread moves the state off `Active`
(the poll loop itself never writes the state either, so the state at exit is
whatever the stopping thread left there, here represented by the state the
worker last observed). -/
def Recorder.record_audio_thread (setup : DeviceSetup) (s : RecorderState) :
    RecorderState × Bool :=
  match setup with
  | .noInputDevice => (s, false)
  | .defaultConfigErr => (s, false)
  | _ =>
    match s.audio_sender with
    | none => (s, false)
    | some _ =>
      match setup with
      | .unsupportedSampleFormat => (s, false)
      | .buildStreamErr => (s, false)
      | .playErr => (s, false)
      | _ => (s, true)

/-- `Recorder::stop_recording` from recorder.rs: no-op unless Active;
otherwise set StopRequested, join the worker, then reset to Inactive and clear
the sender and the stored handle. -/
def Recorder.stop_recording (r : Recorder) : Recorder :=
  if r.state.recording_state ≠ .Active then
    r
  else
    { state := { recording_state := .Inactive, audio_sender := none },
      recording_thread := none }

/-! ## Orchestrator consumption-loop body (orchestrator.rs) -/

/-- The outcome of one `audio_receiver.recv().await` in the orchestrator's
consumption loop: a chunk, or `None` (channel closed and drained). -/
inductive RecvOutcome (α : Type) where
  | chunk (data : List α)
  | closed

/-- The observable effect of one iteration of the consumption-loop body. -/
structure ConsumeResult (α : Type) where
  consecutive_failures : ℕ
  buffer : List α
  sent : List String
  stopped : Bool
deriving DecidableEq

/-- One iteration of the consumption loop inside `Orchestrator::start`
(orchestrator.rs): on a received chunk, run `AudioProcessor::process`; only
when it returns a segment is `consecutive_failures` reset to 0, and the
segment is passed to `TranscriptionService::transcribe` whose text (if any) is
sent on the transcribe channel; when `process` returns `None` nothing else
happens.  On receive failure, `consecutive_failures` is incremented and the
loop breaks when the counter exceeds 5. -/
def consumeStep (resample : List α → ℕ → ℕ → ℕ → List α)
    (engine : List α → Option String) (pc : ProcessorConfig)
    (tc : TranscriptionConfig) (consecutive_failures : ℕ) (buffer : List α)
    (recv : RecvOutcome α) : ConsumeResult α :=
  match recv with
  | .chunk data =>
    match process resample pc buffer data with
    | (some processed_audio, buffer') =>
      { consecutive_failures := 0
        buffer := buffer'
        sent := (transcribe engine tc processed_audio).toList
        stopped := false }
    | (none, buffer') =>
      { consecutive_failures := consecutive_failures
        buffer := buffer'
        sent := []
        stopped := false }
  | .closed =>
    { consecutive_failures := consecutive_failures + 1
      buffer := buffer
      sent := []
      stopped := decide (consecutive_failures + 1 > 5) }

/-! ## Helper lemmas about the processor -/

/-- The invariant maintained by `process` on the buffer: after any call the
buffer is either strictly below the processing threshold (the call returned
`None`) or empty (the call emitted a segment). -/
def BufferInv (c : ProcessorConfig) (buffer : List α) : Prop :=
  buffer.length < c.min_samples_for_processing ∨ buffer.length = 0

lemma bufferInv_not_trimGuard {c : ProcessorConfig} {buffer : List α}
    (hc : c.min_samples_for_processing ≤ c.max_buffer_size)
    (hb : BufferInv c buffer) : ¬ trimGuard c buffer := by
  rcases hb with hb | hb
  · exact fun hg => absurd (lt_of_lt_of_le hb hc) (not_lt.mpr (le_of_lt hg))
  · exact fun hg => absurd hg (by simp [trimGuard, hb])

lemma trimIfOversized_eq_of_le {c : ProcessorConfig} {buffer : List α}
    (h : buffer.length ≤ c.max_buffer_size) : trimIfOversized c buffer = buffer := by
  simp [trimIfOversized, trimGuard, not_lt.mpr h]

lemma process_snd_inv (resample : List α → ℕ → ℕ → ℕ → List α)
    {c : ProcessorConfig} (hc : c.min_samples_for_processing ≤ c.max_buffer_size)
    {buffer : List α} (hb : BufferInv c buffer) (chunk : List α) :
    BufferInv c (process resample c buffer chunk).2 := by
  have hns : trimIfOversized c buffer = buffer := by
    simp [trimIfOversized, bufferInv_not_trimGuard hc hb]
  by_cases hlen : buffer.length + chunk.length < c.min_samples_for_processing
  · left
    simp [process, hns, hlen]
  · right
    by_cases hr : c.source_sample_rate ≠ c.target_sample_rate ∨
        c.source_channels ≠ c.target_channels
    · simp [process, hns, hlen, hr]
    · simp [process, hns, hlen, hr]

lemma foldl_process_inv (resample : List α → ℕ → ℕ → ℕ → List α)
    {c : ProcessorConfig} (hc : c.min_samples_for_processing ≤ c.max_buffer_size) :
    ∀ (chunks : List (List α)) (buffer : List α), BufferInv c buffer →
      BufferInv c (chunks.foldl
        (fun buffer chunk => (process resample c buffer chunk).2) buffer) := by
  intro chunks
  induction chunks with
  | nil => intro buffer hb; exact hb
  | cons chunk rest ih =>
    intro buffer hb
    exact ih _ (process_snd_inv resample hc hb chunk)

lemma runBuffer_inv (resample : List α → ℕ → ℕ → ℕ → List α)
    {c : ProcessorConfig} (hc : c.min_samples_for_processing ≤ c.max_buffer_size)
    (chunks : List (List α)) : BufferInv c (runBuffer resample c chunks) :=
  foldl_process_inv resample hc chunks [] (Or.inr rfl)

lemma whisper_gate_value :
    ⌊MIN_AUDIO_DURATION_SECONDS * ((SAMPLE_RATE : ℕ) : ℚ)⌋₊ = 16000 := by
  norm_num [MIN_AUDIO_DURATION_SECONDS, SAMPLE_RATE]

/-! ## Claims about AudioProcessor.process -/

/-- Claim C3 counterexample.  With `min_samples_for_processing = 2` and
`max_buffer_size = 3` (satisfying the documented invariant max ≥ min) and an
identity source/target configuration, processing the chunk `[1, 2, 3, 4]` from
the fresh empty buffer makes the appended buffer length 4 exceed
`max_buffer_size = 3`, yet when the call returns the buffer is empty — it does
not retain the most recent `min_samples_for_processing = 2` samples `[3, 4]` as
the claim states: the trim branch only runs at the start of the next call. -/
theorem process_overflow_append_not_trimmed_counterexample :
    (⟨16000, 1, 16000, 1, 2, 3⟩ : ProcessorConfig).max_buffer_size <
      (([] : List ℕ) ++ [1, 2, 3, 4]).length ∧
    (process (fun s _ _ _ => s) ⟨16000, 1, 16000, 1, 2, 3⟩ ([] : List ℕ)
      [1, 2, 3, 4]).2 = [] ∧
    (process (fun s _ _ _ => s) ⟨16000, 1, 16000, 1, 2, 3⟩ ([] : List ℕ)
      [1, 2, 3, 4]).2 ≠ [3, 4] := by
  decide

/-- Claim C3 (amended): the trim policy of `AudioProcessor::process` runs at
the start of a call, before the chunk is appended.  When a call begins with
buffer length exceeding `max_buffer_size` (and the config satisfies
max ≥ min), the buffer is trimmed to exactly the most recent
`min_samples_for_processing` samples — a suffix, oldest samples discarded,
order preserved — and the rest of the call behaves as if it had been given the
trimmed buffer. -/
theorem process_trims_at_entry (resample : List α → ℕ → ℕ → ℕ → List α)
    (c : ProcessorConfig) (buffer chunk : List α)
    (hover : c.max_buffer_size < buffer.length)
    (hcfg : c.min_samples_for_processing ≤ c.max_buffer_size) :
    (trimIfOversized c buffer).length = c.min_samples_for_processing ∧
    trimIfOversized c buffer =
      List.drop (buffer.length - c.min_samples_for_processing) buffer ∧
    List.IsSuffix (trimIfOversized c buffer) buffer ∧
    process resample c buffer chunk =
      process resample c (trimIfOversized c buffer) chunk := by
  have hminle : c.min_samples_for_processing ≤ buffer.length :=
    le_trans hcfg (le_of_lt hover)
  have hdrop : (List.drop (buffer.length - c.min_samples_for_processing)
      buffer).length = c.min_samples_for_processing := by
    rw [List.length_drop]
    omega
  have htrim : trimIfOversized c buffer =
      List.drop (buffer.length - c.min_samples_for_processing) buffer := by
    simp only [trimIfOversized, trimGuard, if_pos hover]
    exact List.take_of_length_le (le_of_eq hdrop)
  have hlen : (trimIfOversized c buffer).length = c.min_samples_for_processing := by
    rw [htrim, hdrop]
  have hsecond : trimIfOversized c (trimIfOversized c buffer) =
      trimIfOversized c buffer :=
    trimIfOversized_eq_of_le (by rw [hlen]; exact hcfg)
  refine ⟨hlen, htrim, ?_, ?_⟩
  · rw [htrim]
    exact List.drop_suffix _ _
  · simp [process, hsecond]

/-- Witness for the amended C3 at a concrete input: a call starting with the
oversized buffer `[1, 2, 3, 4]` (max = 3, min = 2) first trims it to the most
recent two samples `[3, 4]` and then behaves exactly like a call on the
trimmed buffer. -/
theorem process_trims_at_entry_witness :
    trimIfOversized (⟨16000, 1, 16000, 1, 2, 3⟩ : ProcessorConfig)
      ([1, 2, 3, 4] : List ℕ) = [3, 4] ∧
    process (fun s _ _ _ => s) ⟨16000, 1, 16000, 1, 2, 3⟩
      ([1, 2, 3, 4] : List ℕ) [9] =
    process (fun s _ _ _ => s) ⟨16000, 1, 16000, 1, 2, 3⟩ [3, 4] [9] := by
  have h := process_trims_at_entry (fun s _ _ _ => s) ⟨16000, 1, 16000, 1, 2, 3⟩
    ([1, 2, 3, 4] : List ℕ) [9] (by decide) (by decide)
  have ht : trimIfOversized (⟨16000, 1, 16000, 1, 2, 3⟩ : ProcessorConfig)
      ([1, 2, 3, 4] : List ℕ) = [3, 4] := by
    rw [h.2.1]
    decide
  have hp := h.2.2.2
  rw [ht] at hp
  exact ⟨ht, hp⟩

/-- Claim C4: on a call whose entry buffer does not exceed `max_buffer_size`
(every state reachable under the invariant max ≥ min, by C5/C9),
`AudioProcessor::process` returns a segment iff the buffer length after
appending the chunk is at least `min_samples_for_processing`; when a segment
is returned the buffer is cleared to length 0 and the segment is all buffered
samples, resampled exactly when the source configuration differs from the
target; when no segment is returned the buffer grows by exactly the chunk
length. -/
theorem process_segment_iff_threshold (resample : List α → ℕ → ℕ → ℕ → List α)
    (c : ProcessorConfig) (buffer chunk : List α)
    (h : buffer.length ≤ c.max_buffer_size) :
    ((process resample c buffer chunk).1.isSome = true ↔
      c.min_samples_for_processing ≤ (buffer ++ chunk).length) ∧
    ((process resample c buffer chunk).1 = none →
      (process resample c buffer chunk).2.length = buffer.length + chunk.length) ∧
    (∀ seg, (process resample c buffer chunk).1 = some seg →
      (process resample c buffer chunk).2 = [] ∧
      seg = if c.source_sample_rate ≠ c.target_sample_rate ∨
              c.source_channels ≠ c.target_channels then
              resample (buffer ++ chunk) c.source_sample_rate
                c.target_sample_rate c.source_channels
            else buffer ++ chunk) := by
  have hns : trimIfOversized c buffer = buffer := trimIfOversized_eq_of_le h
  have hkey : process resample c buffer chunk =
      if (buffer ++ chunk).length < c.min_samples_for_processing then
        (none, buffer ++ chunk)
      else if c.source_sample_rate ≠ c.target_sample_rate ∨
              c.source_channels ≠ c.target_channels then
        (some (resample (buffer ++ chunk) c.source_sample_rate
          c.target_sample_rate c.source_channels), ([] : List α))
      else (some (buffer ++ chunk), []) := by
    simp [process, hns]
  rw [hkey]
  by_cases hlen : buffer.length + chunk.length < c.min_samples_for_processing
  · rw [if_pos (by simpa using hlen)]
    refine ⟨by simp; omega, fun _ => by simp, fun seg hseg => by simp at hseg⟩
  · rw [if_neg (by simpa using hlen)]
    by_cases hr : c.source_sample_rate ≠ c.target_sample_rate ∨
        c.source_channels ≠ c.target_channels
    · rw [if_pos hr]
      refine ⟨by simp; omega, fun hnone => by simp at hnone, ?_⟩
      intro seg hseg
      simp at hseg
      exact ⟨rfl, by rw [if_pos hr, hseg]⟩
    · rw [if_neg hr]
      refine ⟨by simp; omega, fun hnone => by simp at hnone, ?_⟩
      intro seg hseg
      simp at hseg
      exact ⟨rfl, by rw [if_neg hr, hseg]⟩

/-- Witness for C4 at a concrete input: config min = 3, max = 5, buffer
`[1, 2]`, chunk `[3]` — the appended length 3 reaches the threshold, so a
segment is emitted. -/
theorem process_segment_iff_threshold_witness :
    (process (fun s _ _ _ => s) ⟨16000, 1, 16000, 1, 3, 5⟩ ([1, 2] : List ℕ)
      [3]).1.isSome = true :=
  (process_segment_iff_threshold (fun s _ _ _ => s) ⟨16000, 1, 16000, 1, 3, 5⟩
    [1, 2] [3] (by decide)).1.mpr (by decide)

/-- Claim C5: for every configuration with max_buffer_size ≥
min_samples_for_processing and every chunk sequence processed from the fresh
empty buffer, the buffer length observed after each `process` call never
exceeds `max_buffer_size`. -/
theorem runBuffer_length_le_max (resample : List α → ℕ → ℕ → ℕ → List α)
    (c : ProcessorConfig)
    (hc : c.min_samples_for_processing ≤ c.max_buffer_size)
    (chunks : List (List α)) :
    (runBuffer resample c chunks).length ≤ c.max_buffer_size := by
  rcases runBuffer_inv resample hc chunks with h | h
  · exact le_trans (le_of_lt h) hc
  · rw [h]
    exact Nat.zero_le _

/-- Witness for C5 at a concrete input. -/
theorem runBuffer_length_le_max_witness :
    (runBuffer (fun s _ _ _ => s) ⟨16000, 1, 16000, 1, 2, 3⟩
      ([[1], [2], [3], [4]] : List (List ℕ))).length ≤ 3 :=
  runBuffer_length_le_max (fun s _ _ _ => s) ⟨16000, 1, 16000, 1, 2, 3⟩
    (by decide) [[1], [2], [3], [4]]

/-- Claim C7: when the source sample rate and channel count equal the target
ones, `AudioProcessor::process` never invokes the resample utility (its result
does not depend on the resample function at all) and an emitted segment is
exactly the accumulated buffered samples, unchanged. -/
theorem process_identity_passthrough
    (resample resample' : List α → ℕ → ℕ → ℕ → List α) (c : ProcessorConfig)
    (buffer chunk : List α)
    (hrate : c.source_sample_rate = c.target_sample_rate)
    (hchan : c.source_channels = c.target_channels) :
    process resample c buffer chunk = process resample' c buffer chunk ∧
    ∀ seg, (process resample c buffer chunk).1 = some seg →
      seg = trimIfOversized c buffer ++ chunk := by
  have hcond : ¬ (c.source_sample_rate ≠ c.target_sample_rate ∨
      c.source_channels ≠ c.target_channels) := by
    simp [hrate, hchan]
  constructor
  · simp [process, hcond]
  · intro seg hseg
    by_cases hlen : (trimIfOversized c buffer).length + chunk.length <
        c.min_samples_for_processing
    · simp [process, hlen, hcond] at hseg
    · simp [process, hlen, hcond] at hseg
      exact hseg.symm

/-- Witness for C7 at a concrete input: two different resample functions give
the same result, and the emitted segment is the input unchanged. -/
theorem process_identity_passthrough_witness :
    process (fun s _ _ _ => s) ⟨16000, 1, 16000, 1, 1, 10⟩ ([] : List ℕ) [5] =
      process (fun _ _ _ _ => []) ⟨16000, 1, 16000, 1, 1, 10⟩ ([] : List ℕ) [5] ∧
    (process (fun s _ _ _ => s) ⟨16000, 1, 16000, 1, 1, 10⟩ ([] : List ℕ)
      [5]).1 = some [5] :=
  ⟨(process_identity_passthrough (fun s _ _ _ => s) (fun _ _ _ _ => [])
      ⟨16000, 1, 16000, 1, 1, 10⟩ [] [5] rfl rfl).1, by decide⟩

/-- Claim C9 counterexample.  The first half of the claim fails for the
degenerate configuration `min_samples_for_processing = 0` (which satisfies
max_buffer_size ≥ min_samples_for_processing): from a fresh processor every
call clears the buffer, so the buffer length at entry to a call is 0, which is
not strictly less than the threshold 0.  Here the entry state to the second
call, after processing the chunk `[7]`, has length 0. -/
theorem runBuffer_entry_not_lt_threshold_counterexample :
    (⟨16000, 1, 16000, 1, 0, 0⟩ : ProcessorConfig).min_samples_for_processing ≤
      (⟨16000, 1, 16000, 1, 0, 0⟩ : ProcessorConfig).max_buffer_size ∧
    ¬ ((runBuffer (fun s _ _ _ => s) ⟨16000, 1, 16000, 1, 0, 0⟩
        ([[7]] : List (List ℕ))).length <
      (⟨16000, 1, 16000, 1, 0, 0⟩ : ProcessorConfig).min_samples_for_processing) := by
  decide

/-- Claim C9 (amended): starting from a freshly constructed processor, under
the invariant max_buffer_size ≥ min_samples_for_processing, the buffer at
entry to every `process` call is strictly below `min_samples_for_processing`
whenever that threshold is positive (each call either clears the buffer or
leaves it below the threshold; with threshold 0 every call clears it), and in
every case the trim branch's guard `len > max_buffer_size` is false at every
reachable entry state, so the trim branch never executes. -/
theorem runBuffer_entry_below_threshold_no_trim
    (resample : List α → ℕ → ℕ → ℕ → List α) (c : ProcessorConfig)
    (hc : c.min_samples_for_processing ≤ c.max_buffer_size)
    (chunks : List (List α)) :
    (0 < c.min_samples_for_processing →
      (runBuffer resample c chunks).length < c.min_samples_for_processing) ∧
    ¬ trimGuard c (runBuffer resample c chunks) := by
  have h := runBuffer_inv resample hc chunks
  refine ⟨?_, bufferInv_not_trimGuard hc h⟩
  intro hpos
  rcases h with h | h
  · exact h
  · rw [h]
    exact hpos

/-- Witness for the amended C9 at a concrete input. -/
theorem runBuffer_entry_below_threshold_no_trim_witness :
    ((runBuffer (fun s _ _ _ => s) ⟨16000, 1, 16000, 1, 2, 3⟩
        ([[1], [2], [3]] : List (List ℕ))).length < 2) ∧
    ¬ trimGuard (⟨16000, 1, 16000, 1, 2, 3⟩ : ProcessorConfig)
        (runBuffer (fun s _ _ _ => s) ⟨16000, 1, 16000, 1, 2, 3⟩
          ([[1], [2], [3]] : List (List ℕ))) :=
  ⟨(runBuffer_entry_below_threshold_no_trim (fun s _ _ _ => s)
      ⟨16000, 1, 16000, 1, 2, 3⟩ (by decide) [[1], [2], [3]]).1 (by decide),
   (runBuffer_entry_below_threshold_no_trim (fun s _ _ _ => s)
      ⟨16000, 1, 16000, 1, 2, 3⟩ (by decide) [[1], [2], [3]]).2⟩

/-! ## Claims about TranscriptionService.transcribe -/

/-- Claim C6: for every samples input shorter than the configured minimum
`min_samples = (min_duration_seconds * sample_rate) as usize`,
`TranscriptionService::transcribe` returns nothing, for every possible
behaviour of the speech-to-text engine — i.e. without invoking the engine,
regardless of the samples' content. -/
theorem transcribe_short_segment_none (c : TranscriptionConfig)
    (samples : List α) (h : samples.length < c.minSamples) :
    ∀ engine : List α → Option String, transcribe engine c samples = none := by
  intro engine
  simp [transcribe, h]

/-- Witness for C6 at the claim's own example: a 0.5-second segment
(8000 samples) at 16000 Hz with `min_duration_seconds = 1.0` (the default
configuration) yields nothing, even for an engine that always produces text. -/
theorem transcribe_short_segment_none_witness :
    transcribe (fun _ => some "text") TranscriptionConfig.default
      (List.replicate 8000 (0 : ℕ)) = none :=
  transcribe_short_segment_none TranscriptionConfig.default _
    (by norm_num [TranscriptionConfig.minSamples, TranscriptionConfig.default])
    (fun _ => some "text")

/-- Claim C10: `whisper::transcribe` applies its own fixed gate of
`MIN_AUDIO_DURATION_SECONDS * SAMPLE_RATE = 16000` samples, so
`TranscriptionService::transcribe` returns nothing for every input shorter
than 16000 samples whatever the configured threshold is, and the engine runs
exactly when the input length reaches the maximum of the configured threshold
and 16000. -/
theorem transcribe_whisper_fixed_gate (engine : List α → Option String)
    (c : TranscriptionConfig) (samples : List α) :
    (samples.length < 16000 → transcribe engine c samples = none) ∧
    (max c.minSamples 16000 ≤ samples.length →
      transcribe engine c samples = engine samples) := by
  constructor
  · intro h
    by_cases hc : samples.length < c.minSamples
    · simp [transcribe, hc]
    · simp [transcribe, hc, whisperTranscribe, whisper_gate_value, h]
  · intro h
    have h1 : ¬ samples.length < c.minSamples :=
      not_lt.mpr (le_trans (le_max_left _ _) h)
    have h2 : ¬ samples.length < 16000 :=
      not_lt.mpr (le_trans (le_max_right _ _) h)
    simp [transcribe, h1, whisperTranscribe, whisper_gate_value, h2]

/-- Witness for C10 at a concrete input: with `min_duration_seconds = 1/2` the
configured threshold is 8000, yet an 8000-sample input (which satisfies the
configured threshold) still yields nothing because of whisper.rs's hard-coded
16000-sample gate. -/
theorem transcribe_whisper_fixed_gate_witness :
    (⟨"en", 1/2, 16000, "m"⟩ : TranscriptionConfig).minSamples ≤
      (List.replicate 8000 (0 : ℕ)).length ∧
    transcribe (fun _ => some "text") (⟨"en", 1/2, 16000, "m"⟩ : TranscriptionConfig)
      (List.replicate 8000 (0 : ℕ)) = none :=
  ⟨by norm_num [TranscriptionConfig.minSamples],
   (transcribe_whisper_fixed_gate (fun _ => some "text") ⟨"en", 1/2, 16000, "m"⟩
     (List.replicate 8000 (0 : ℕ))).1 (by norm_num)⟩

/-! ## Claims about the Recorder -/

/-- Claim C8: a second `start_recording` on a recorder whose shared state is
Active is a no-op: it returns immediately with the recorder unchanged (state
still Active, stored sender and thread handle untouched) and spawns no second
worker thread — hence no second device open. -/
theorem start_recording_second_call_noop (r : Recorder) (sender tid : ℕ)
    (h : r.state.recording_state = RecordingState.Active) :
    r.start_recording sender tid = (r, false) := by
  simp [Recorder.start_recording, h]

/-- Witness for C8 at a concrete input. -/
theorem start_recording_second_call_noop_witness :
    Recorder.start_recording ⟨⟨RecordingState.Active, some 1⟩, some 0⟩ 2 3 =
      (⟨⟨RecordingState.Active, some 1⟩, some 0⟩, false) :=
  start_recording_second_call_noop ⟨⟨RecordingState.Active, some 1⟩, some 0⟩ 2 3 rfl

/-- Claim C1 (evaluating the code at the failing inputs): when device setup
fails before capture begins — any `record_audio_thread` outcome other than
`ok` — the worker thread exits leaving the shared `recording_state` Active
(set by `start_recording`), not Inactive as the spec requires, and a
subsequent `start_recording` is rejected as already active instead of
retrying. -/
theorem record_audio_thread_failure_leaves_active (setup : DeviceSetup)
    (h : setup ≠ DeviceSetup.ok) (sender tid sender' tid' : ℕ) :
    (Recorder.record_audio_thread setup
        ((Recorder.new.start_recording sender tid).1).state).1.recording_state =
      RecordingState.Active ∧
    (Recorder.record_audio_thread setup
        ((Recorder.new.start_recording sender tid).1).state).2 = false ∧
    Recorder.start_recording
        ⟨(Recorder.record_audio_thread setup
            ((Recorder.new.start_recording sender tid).1).state).1, some tid⟩
        sender' tid' =
      (⟨(Recorder.record_audio_thread setup
            ((Recorder.new.start_recording sender tid).1).state).1, some tid⟩,
        false) := by
  cases setup <;>
    simp_all [Recorder.record_audio_thread, Recorder.start_recording, Recorder.new]

/-- Witness for the C1 code-behaviour theorem at the concrete failing input
"no default input device". -/
theorem record_audio_thread_failure_leaves_active_witness :
    (Recorder.record_audio_thread DeviceSetup.noInputDevice
        ((Recorder.new.start_recording 1 2).1).state).1.recording_state =
      RecordingState.Active ∧
    (Recorder.record_audio_thread DeviceSetup.noInputDevice
        ((Recorder.new.start_recording 1 2).1).state).2 = false ∧
    Recorder.start_recording
        ⟨(Recorder.record_audio_thread DeviceSetup.noInputDevice
            ((Recorder.new.start_recording 1 2).1).state).1, some 2⟩ 3 4 =
      (⟨(Recorder.record_audio_thread DeviceSetup.noInputDevice
            ((Recorder.new.start_recording 1 2).1).state).1, some 2⟩, false) :=
  record_audio_thread_failure_leaves_active DeviceSetup.noInputDevice
    (by decide) 1 2 3 4

/-! ## Claims about the orchestrator's consumption loop -/

/-- Claim C2 counterexample.  With the failure counter at 3, receiving a chunk
for which `AudioProcessor::process` returns no segment (here a 1-sample chunk
against a threshold of 2) leaves the counter at 3: a successful chunk receipt
does not reset the counter unless `process` returns a segment, contrary to the
claim. -/
theorem consumeStep_receipt_keeps_counter_counterexample :
    (consumeStep (fun s _ _ _ => s) (fun _ => none) ⟨16000, 1, 16000, 1, 2, 3⟩
        TranscriptionConfig.default 3 ([] : List ℕ)
        (RecvOutcome.chunk [1])).consecutive_failures = 3 ∧
    (consumeStep (fun s _ _ _ => s) (fun _ => none) ⟨16000, 1, 16000, 1, 2, 3⟩
        TranscriptionConfig.default 3 ([] : List ℕ)
        (RecvOutcome.chunk [1])).consecutive_failures ≠ 0 := by
  decide

/-- Claim C2 (amended): in the consumption-loop body, a received chunk resets
the consecutive-failure counter to zero exactly when `process` returns a
segment for it; a receipt whose chunk does not yet produce a segment leaves
the counter unchanged; a receive failure increments the counter, and the loop
stops when the incremented counter exceeds 5 (i.e. on the sixth consecutive
failure). -/
theorem consumeStep_counter_spec (resample : List α → ℕ → ℕ → ℕ → List α)
    (engine : List α → Option String) (pc : ProcessorConfig)
    (tc : TranscriptionConfig) (f : ℕ) (buffer : List α) :
    (∀ data seg buffer', process resample pc buffer data = (some seg, buffer') →
      (consumeStep resample engine pc tc f buffer
        (RecvOutcome.chunk data)).consecutive_failures = 0) ∧
    (∀ data buffer', process resample pc buffer data = (none, buffer') →
      (consumeStep resample engine pc tc f buffer
        (RecvOutcome.chunk data)).consecutive_failures = f) ∧
    (consumeStep resample engine pc tc f buffer
      RecvOutcome.closed).consecutive_failures = f + 1 ∧
    ((consumeStep resample engine pc tc f buffer RecvOutcome.closed).stopped =
      true ↔ 5 < f + 1) := by
  refine ⟨?_, ?_, rfl, ?_⟩
  · intro data seg buffer' hp
    simp [consumeStep, hp]
  · intro data buffer' hp
    simp [consumeStep, hp]
  · simp [consumeStep]

/-- Witness for the amended C2 at concrete inputs: counter 2 stays 2 on a
segmentless receipt, resets to 0 on a segment-producing receipt, and becomes 3
on a receive failure. -/
theorem consumeStep_counter_spec_witness :
    (consumeStep (fun s _ _ _ => s) (fun _ => none) ⟨16000, 1, 16000, 1, 2, 3⟩
        TranscriptionConfig.default 2 ([] : List ℕ)
        (RecvOutcome.chunk [1])).consecutive_failures = 2 ∧
    (consumeStep (fun s _ _ _ => s) (fun _ => none) ⟨16000, 1, 16000, 1, 2, 3⟩
        TranscriptionConfig.default 2 ([] : List ℕ)
        (RecvOutcome.chunk [1, 2])).consecutive_failures = 0 ∧
    (consumeStep (fun s _ _ _ => s) (fun _ => none) ⟨16000, 1, 16000, 1, 2, 3⟩
        TranscriptionConfig.default 2 ([] : List ℕ)
        RecvOutcome.closed).consecutive_failures = 3 :=
  ⟨(consumeStep_counter_spec (fun s _ _ _ => s) (fun _ => none)
      ⟨16000, 1, 16000, 1, 2, 3⟩ TranscriptionConfig.default 2 []).2.1
      [1] [1] (by decide),
   (consumeStep_counter_spec (fun s _ _ _ => s) (fun _ => none)
      ⟨16000, 1, 16000, 1, 2, 3⟩ TranscriptionConfig.default 2 []).1
      [1, 2] [1, 2] [] (by decide),
   (consumeStep_counter_spec (fun s _ _ _ => s) (fun _ => none)
      ⟨16000, 1, 16000, 1, 2, 3⟩ TranscriptionConfig.default 2 []).2.2.1⟩

end AudioControl
